import Mathlib

/-!
Verification of the upload pipeline of the route-optimization frontend
(`src/app/core/effects/upload.effects.ts` and the CSV service).

The effects are reactive pipelines whose bodies are pure functions of the
dialog result, the current time (`Date.now()`), and the output of the
injected `NormalizationService.normalizeScenario`.  We embed each effect
body as a Lean function taking the normalization service as an explicit
function argument (mirroring the dependency injection in the source) and
the timestamp as an explicit parameter in place of `Date.now()`.
-/

namespace UploadEffects

/-- An injected solution constraint of a scenario.  The effects only read
its `routes` field; `none` models a JavaScript `undefined`/`null` routes
field (falsy), `some` models a present routes array (truthy, even when
empty, per JavaScript truthiness of objects). -/
structure InjectedSolutionConstraint where
  routes : Option (List Nat)
deriving DecidableEq, Repr

/-- A scenario (raw or normalized).  The upload effects only inspect the
`injectedSolutionConstraint` field of a normalized scenario; the rest of
the scenario payload is opaque to them and carried as `payload`. -/
structure Scenario where
  injectedSolutionConstraint : Option InjectedSolutionConstraint
  payload : Nat
deriving DecidableEq, Repr

/-- Truthiness of `normalizedScenario.injectedSolutionConstraint?.routes`
in the source: the optional chain is truthy exactly when the constraint is
present and its `routes` field is present. -/
def hasInjectedRoutes (s : Scenario) : Bool :=
  match s.injectedSolutionConstraint with
  | some c => c.routes.isSome
  | none => false

/-- A solution uploaded alongside a scenario; opaque to the effects. -/
structure Solution where
  payload : Nat
deriving DecidableEq, Repr

/-- A shipment as read by the effects: an id and an `ignore` flag. -/
structure Shipment where
  id : Nat
  ignore : Bool
deriving DecidableEq, Repr

/-- A vehicle as read by the effects: an id and an `ignore` flag. -/
structure Vehicle where
  id : Nat
  ignore : Bool
deriving DecidableEq, Repr

/-- A vehicle operator.  It carries an `ignore` flag like shipments and
vehicles do, but the effects never read it. -/
structure VehicleOperator where
  id : Nat
  ignore : Bool
deriving DecidableEq, Repr

/-- A visit request; opaque to the effects. -/
structure VisitRequest where
  id : Nat
deriving DecidableEq, Repr

/-- A shipment model; opaque to the effects. -/
structure ShipmentModel where
  payload : Nat
deriving DecidableEq, Repr

/-- The record returned by `NormalizationService.normalizeScenario`, with
exactly the fields destructured by the `openDialog$` and `loadScenario$`
effects.  Fields the effects merely forward are given simple carrier
types. -/
structure NormalizeResult where
  firstSolutionRoutes : List Nat
  injectedModelConstraint : Option Nat
  injectedSolution : Bool
  label : String
  searchMode : Nat
  shipments : List Shipment
  shipmentModel : ShipmentModel
  solvingMode : Nat
  timeout : Option Nat
  traffic : Bool
  vehicles : List Vehicle
  vehicleOperators : List VehicleOperator
  visitRequests : List VisitRequest
  allowLargeDeadlineDespiteInterruptionRisk : Bool
  interpretInjectedSolutionsUsingLabels : Bool
  populateTransitionPolylines : Bool
  useGeodesicDistances : Bool
  geodesicMetersPerSecond : Option Nat
  normalizedScenario : Scenario
deriving DecidableEq, Repr

/-- The type of `normalizeScenario`: raw scenario and timestamp in, the
destructured normalization record out. -/
def NormalizeScenario : Type := Scenario → Nat → NormalizeResult

/-- Payload of `DispatcherActions.loadScenario`. -/
structure LoadScenarioPayload where
  shipments : List Shipment
  vehicles : List Vehicle
  vehicleOperators : List VehicleOperator
  visitRequests : List VisitRequest
  selectedShipments : List Nat
  selectedVehicles : List Nat
  selectedVehicleOperators : List Nat
  changeTime : Nat
deriving DecidableEq, Repr

/-- Payload of `RequestSettingsActions.setRequestSettings`. -/
structure RequestSettingsPayload where
  firstSolutionRoutes : List Nat
  injectedModelConstraint : Option Nat
  injectedSolution : Bool
  label : String
  searchMode : Nat
  solvingMode : Nat
  timeout : Option Nat
  traffic : Bool
  allowLargeDeadlineDespiteInterruptionRisk : Bool
  interpretInjectedSolutionsUsingLabels : Bool
  populateTransitionPolylines : Bool
  useGeodesicDistances : Bool
  geodesicMetersPerSecond : Option Nat
deriving DecidableEq, Repr

/-- The `elapsedSolution` record of `DispatcherApiActions.applySolution`. -/
structure ElapsedSolution where
  scenario : Scenario
  solution : Solution
  elapsedTime : Nat
  requestTime : Nat
  timeOfResponse : Nat
deriving DecidableEq, Repr

/-- The actions the three upload effects can dispatch to the store. -/
inductive Action where
  | closeCsvDialog : Action
  | setTimezone (newTimezone : String) : Action
  | uploadScenarioSuccess (scenario : Scenario) : Action
  | closeDialog : Action
  | applySolution (elapsedSolution : ElapsedSolution)
      (requestedShipmentIds : List Nat) (requestedVehicleIds : List Nat) : Action
  | loadScenario (payload : LoadScenarioPayload) : Action
  | setRequestSettings (payload : RequestSettingsPayload) : Action
  | setShipmentModel (shipmentModel : ShipmentModel) : Action
deriving DecidableEq, Repr

/-- The result of the CSV upload dialog when it closes with a value. -/
structure CsvDialogResult where
  timezone : String
  scenario : Scenario
deriving DecidableEq, Repr

/-- The `mergeMap` body of `openCsvDialog$`: a falsy (closed without
value) dialog result yields no actions; a truthy one yields
`closeCsvDialog`, `setTimezone` and `uploadScenarioSuccess` in order. -/
def openCsvDialogHandle (dialogResult : Option CsvDialogResult) : List Action :=
  match dialogResult with
  | none => []
  | some r =>
    [Action.closeCsvDialog,
     Action.setTimezone r.timezone,
     Action.uploadScenarioSuccess r.scenario]

/-- The result of the Upload dialog when it closes with a value.  The
source pairs an `uploadType` discriminant with an untyped `content`; the
constructor records which of the two handled shapes was produced. -/
inductive UploadDialogResult where
  | scenarioUpload (content : Scenario) : UploadDialogResult
  | scenarioSolutionPairUpload (scenario : Scenario) (solution : Solution) :
      UploadDialogResult
deriving DecidableEq, Repr

/-- Warning text shown for a plain scenario upload with injected routes. -/
def scenarioInjectedRoutesWarning : String :=
  "The uploaded scenario contains injected routes, but no solution. These injected routes will be ignored by the application."

/-- Warning text shown for a scenario/solution pair upload with injected
routes. -/
def pairInjectedRoutesWarning : String :=
  "The uploaded scenario contains both injected routes and a solution. Only the solution will be considered for further injected iterations."

/-- Output of one pass of the `openDialog$` body: the warnings emitted via
`MessageService.warning` and the actions returned to the store. -/
structure EffectOutput where
  warnings : List String
  actions : List Action
deriving DecidableEq, Repr

/-- The `mergeMap` body of `openDialog$`.  `now` stands for `Date.now()`.
`closeDialog` is always dispatched first; a truthy dialog result then
normalizes the scenario and pushes the success actions, warning when the
normalized scenario has injected routes. -/
def openDialogHandle (normalizeScenario : NormalizeScenario) (now : Nat)
    (dialogResult : Option UploadDialogResult) : EffectOutput :=
  match dialogResult with
  | none => { warnings := [], actions := [Action.closeDialog] }
  | some (UploadDialogResult.scenarioUpload content) =>
    let r := normalizeScenario content now
    { warnings :=
        if hasInjectedRoutes r.normalizedScenario then
          [scenarioInjectedRoutesWarning]
        else []
      actions :=
        [Action.closeDialog,
         Action.uploadScenarioSuccess r.normalizedScenario] }
  | some (UploadDialogResult.scenarioSolutionPairUpload scenario solution) =>
    let requestTime := now
    let r := normalizeScenario scenario requestTime
    let requestedShipmentIds :=
      (r.shipments.filter (fun s => !s.ignore)).map (fun s => s.id)
    let requestedVehicleIds :=
      (r.vehicles.filter (fun v => !v.ignore)).map (fun v => v.id)
    { warnings :=
        if hasInjectedRoutes r.normalizedScenario then
          [pairInjectedRoutesWarning]
        else []
      actions :=
        [Action.closeDialog,
         Action.uploadScenarioSuccess r.normalizedScenario,
         Action.applySolution
           { scenario := r.normalizedScenario
             solution := solution
             elapsedTime := 0
             requestTime := requestTime
             timeOfResponse := requestTime }
           requestedShipmentIds requestedVehicleIds] }

/-- The `concatMap` body of `loadScenario$`.  `changeTime` stands for
`Date.now()`.  The selection lists are built by `forEach`/`push` loops in
the source, embedded here as left folds appending one element at a time. -/
def loadScenarioHandle (normalizeScenario : NormalizeScenario)
    (changeTime : Nat) (scenario : Scenario) : List Action :=
  let r := normalizeScenario scenario changeTime
  let selectedShipments : List Nat :=
    r.shipments.foldl
      (fun acc shipment => if !shipment.ignore then acc ++ [shipment.id] else acc) []
  let selectedVehicles : List Nat :=
    r.vehicles.foldl
      (fun acc vehicle => if !vehicle.ignore then acc ++ [vehicle.id] else acc) []
  let selectedVehicleOperators : List Nat :=
    r.vehicleOperators.foldl
      (fun acc vehicleOperator => acc ++ [vehicleOperator.id]) []
  [Action.loadScenario
     { shipments := r.shipments
       vehicles := r.vehicles
       vehicleOperators := r.vehicleOperators
       visitRequests := r.visitRequests
       selectedShipments := selectedShipments
       selectedVehicles := selectedVehicles
       selectedVehicleOperators := selectedVehicleOperators
       changeTime := changeTime },
   Action.setRequestSettings
     { firstSolutionRoutes := r.firstSolutionRoutes
       injectedModelConstraint := r.injectedModelConstraint
       injectedSolution := r.injectedSolution
       label := r.label
       searchMode := r.searchMode
       solvingMode := r.solvingMode
       timeout := r.timeout
       traffic := r.traffic
       allowLargeDeadlineDespiteInterruptionRisk :=
         r.allowLargeDeadlineDespiteInterruptionRisk
       interpretInjectedSolutionsUsingLabels :=
         r.interpretInjectedSolutionsUsingLabels
       populateTransitionPolylines := r.populateTransitionPolylines
       useGeodesicDistances := r.useGeodesicDistances
       geodesicMetersPerSecond := r.geodesicMetersPerSecond },
   Action.setShipmentModel r.shipmentModel]

/-- Modal identifiers, as used both for the selected-modal UI state and as
Material dialog ids. -/
inductive Modal where
  | Upload : Modal
  | CsvUpload : Modal
  | Other : Modal
deriving DecidableEq, Repr

/-- The UI state the dialog-opening guards read: the currently selected
modal (possibly none) and the ids of the currently open dialogs. -/
structure DialogState where
  selectedModal : Option Modal
  openDialogIds : List Modal
deriving DecidableEq, Repr

/-- `MatDialog.getDialogById`: truthy exactly when a dialog with the given
id is open. -/
def getDialogById (st : DialogState) (id : Modal) : Bool :=
  st.openDialogIds.contains id

/-- The `filter` stage of `openDialog$`: the Upload dialog is opened
exactly when this guard passes. -/
def openDialogGuard (st : DialogState) : Bool :=
  decide (st.selectedModal = some Modal.Upload) && !(getDialogById st Modal.Upload)

/-- The `filter` stage of `openCsvDialog$`: the CSV upload dialog is
opened exactly when this guard passes. -/
def openCsvDialogGuard (st : DialogState) : Bool :=
  decide (st.selectedModal = some Modal.CsvUpload) && !(getDialogById st Modal.CsvUpload)

end UploadEffects

namespace CsvService

/-- Modelled from the spec: `CsvService.filterExperimentalFieldsFromCsv`
itself is not among the provided sources; only its unit tests are.  Per the
spec's description of CSV filtering as column removal and the behaviour the
tests pin down, a parsed CSV is a list of rows, each row a list of
(column name, value) cells; when experimental features are allowed the CSV
is returned unchanged, otherwise every cell of a listed experimental column
is removed from every row. -/
def filterExperimentalFieldsFromCsv (csv : List (List (String × String)))
    (allowExperimentalFeatures : Bool) (experimentalFields : List String) :
    List (List (String × String)) :=
  if allowExperimentalFeatures then csv
  else
    csv.map (fun row =>
      row.filter (fun cell => !(experimentalFields.contains cell.fst)))

end CsvService

namespace UploadEffects

/-- A `forEach`/`push` loop guarded by a predicate builds exactly the
filtered, projected list. -/
lemma foldl_push_if_eq {α : Type} (p : α → Bool) (f : α → Nat)
    (l : List α) (init : List Nat) :
    l.foldl (fun acc x => if p x then acc ++ [f x] else acc) init
      = init ++ (l.filter p).map f := by
  induction l generalizing init with
  | nil => simp
  | cons a l ih =>
    by_cases h : p a = true
    · simp [List.foldl_cons, h, ih]
    · simp [List.foldl_cons, h, ih]

/-- An unguarded `forEach`/`push` loop builds exactly the projected
list. -/
lemma foldl_push_eq {α : Type} (f : α → Nat) (l : List α) (init : List Nat) :
    l.foldl (fun acc x => acc ++ [f x]) init = init ++ l.map f := by
  induction l generalizing init with
  | nil => simp
  | cons a l ih => simp [List.foldl_cons, ih]

/-- Closed form of the `loadScenario$` body: the selection loops reduce to
filtered id lists, and the effect emits exactly the three actions. -/
lemma loadScenarioHandle_eq (n : NormalizeScenario) (t : Nat) (sc : Scenario) :
    loadScenarioHandle n t sc =
      [Action.loadScenario
         { shipments := (n sc t).shipments
           vehicles := (n sc t).vehicles
           vehicleOperators := (n sc t).vehicleOperators
           visitRequests := (n sc t).visitRequests
           selectedShipments :=
             (((n sc t).shipments.filter (fun x => !x.ignore)).map (fun x => x.id))
           selectedVehicles :=
             (((n sc t).vehicles.filter (fun x => !x.ignore)).map (fun x => x.id))
           selectedVehicleOperators := ((n sc t).vehicleOperators.map (fun x => x.id))
           changeTime := t },
       Action.setRequestSettings
         { firstSolutionRoutes := (n sc t).firstSolutionRoutes
           injectedModelConstraint := (n sc t).injectedModelConstraint
           injectedSolution := (n sc t).injectedSolution
           label := (n sc t).label
           searchMode := (n sc t).searchMode
           solvingMode := (n sc t).solvingMode
           timeout := (n sc t).timeout
           traffic := (n sc t).traffic
           allowLargeDeadlineDespiteInterruptionRisk :=
             (n sc t).allowLargeDeadlineDespiteInterruptionRisk
           interpretInjectedSolutionsUsingLabels :=
             (n sc t).interpretInjectedSolutionsUsingLabels
           populateTransitionPolylines := (n sc t).populateTransitionPolylines
           useGeodesicDistances := (n sc t).useGeodesicDistances
           geodesicMetersPerSecond := (n sc t).geodesicMetersPerSecond },
       Action.setShipmentModel (n sc t).shipmentModel] := by
  show [Action.loadScenario _, Action.setRequestSettings _, Action.setShipmentModel _] = _
  rw [foldl_push_if_eq, foldl_push_if_eq, foldl_push_eq]
  simp

end UploadEffects

namespace UploadEffects

/-- C1: ignored entities are excluded from selection sets.  The
`loadScenario` action dispatched by `loadScenario$` carries as
`selectedShipments` (resp. `selectedVehicles`) exactly the ids of the
non-ignored shipments (resp. vehicles) of the normalization result, and
the `applySolution` action of a scenario/solution pair upload carries as
`requestedShipmentIds` and `requestedVehicleIds` exactly the ids of the
non-ignored shipments and vehicles. -/
theorem ignored_excluded_from_selection (n : NormalizeScenario) (t : Nat)
    (sc s : Scenario) (sol : Solution) :
    (∃ p rest, loadScenarioHandle n t sc = Action.loadScenario p :: rest ∧
      p.selectedShipments
        = (((n sc t).shipments.filter (fun x => !x.ignore)).map (fun x => x.id)) ∧
      p.selectedVehicles
        = (((n sc t).vehicles.filter (fun x => !x.ignore)).map (fun x => x.id))) ∧
    (∃ es, (openDialogHandle n t
        (some (UploadDialogResult.scenarioSolutionPairUpload s sol))).actions
      = [Action.closeDialog,
         Action.uploadScenarioSuccess (n s t).normalizedScenario,
         Action.applySolution es
           (((n s t).shipments.filter (fun x => !x.ignore)).map (fun x => x.id))
           (((n s t).vehicles.filter (fun x => !x.ignore)).map (fun x => x.id))]) :=
  ⟨⟨_, _, loadScenarioHandle_eq n t sc, rfl, rfl⟩, ⟨_, rfl⟩⟩

/-- C3: for every `uploadScenarioSuccess` action, the `loadScenario$`
effect dispatches exactly three actions, in this order:
`DispatcherActions.loadScenario`,
`RequestSettingsActions.setRequestSettings`,
`ShipmentModelActions.setShipmentModel`. -/
theorem loadScenario_dispatches_three_actions (n : NormalizeScenario)
    (t : Nat) (sc : Scenario) :
    ∃ p q m, loadScenarioHandle n t sc
      = [Action.loadScenario p, Action.setRequestSettings q,
         Action.setShipmentModel m] :=
  ⟨_, _, _, loadScenarioHandle_eq n t sc⟩

/-- C4: for every truthy CSV dialog result, `openCsvDialog$` dispatches
exactly `closeCsvDialog`, `setTimezone` with the result's timezone, and
`uploadScenarioSuccess` with the result's scenario, in this order. -/
theorem openCsvDialog_truthy_dispatch (r : CsvDialogResult) :
    openCsvDialogHandle (some r)
      = [Action.closeCsvDialog,
         Action.setTimezone r.timezone,
         Action.uploadScenarioSuccess r.scenario] := rfl

/-- C7: for every scenario/solution pair upload, the solution is passed
through to `applySolution` unchanged (only the scenario is normalized),
and the dispatched `elapsedSolution` has `elapsedTime` zero and
`timeOfResponse` equal to `requestTime`. -/
theorem pair_solution_passed_through (n : NormalizeScenario) (t : Nat)
    (s : Scenario) (sol : Solution) :
    ∃ rs rv,
      (openDialogHandle n t
          (some (UploadDialogResult.scenarioSolutionPairUpload s sol))).actions
        = [Action.closeDialog,
           Action.uploadScenarioSuccess (n s t).normalizedScenario,
           Action.applySolution
             { scenario := (n s t).normalizedScenario
               solution := sol
               elapsedTime := 0
               requestTime := t
               timeOfResponse := t } rs rv] :=
  ⟨_, _, rfl⟩

/-- C8: the `loadScenario` action carries as `selectedVehicleOperators`
the id of every vehicle operator of the normalization result,
unconditionally: no `ignore` flag is consulted. -/
theorem vehicle_operators_selected_unconditionally (n : NormalizeScenario)
    (t : Nat) (sc : Scenario) :
    ∃ p rest, loadScenarioHandle n t sc = Action.loadScenario p :: rest ∧
      p.selectedVehicleOperators = ((n sc t).vehicleOperators.map (fun x => x.id)) :=
  ⟨_, _, loadScenarioHandle_eq n t sc, rfl⟩

/-- C9: cancelled dialogs behave asymmetrically: a falsy CSV dialog result
yields no actions at all, while a falsy Upload dialog result still yields
exactly the single `closeDialog` action. -/
theorem cancelled_dialogs_asymmetric (n : NormalizeScenario) (t : Nat) :
    openCsvDialogHandle none = [] ∧
    (openDialogHandle n t none).actions = [Action.closeDialog] :=
  ⟨rfl, rfl⟩

end UploadEffects

namespace UploadEffects

/-- C2: injected routes produce a user-facing warning only.  For a
scenario upload and a scenario/solution pair upload whose normalized
scenario has injected routes, the effect emits exactly one warning and
dispatches exactly the same success actions — `closeDialog` then
`uploadScenarioSuccess` (and additionally `applySolution` for the pair) —
as produced without injected routes; no retry or recovery action
appears. -/
theorem injected_routes_warning_only (n : NormalizeScenario) (t : Nat)
    (c s : Scenario) (sol : Solution)
    (hc : hasInjectedRoutes (n c t).normalizedScenario = true)
    (hs : hasInjectedRoutes (n s t).normalizedScenario = true) :
    (openDialogHandle n t (some (UploadDialogResult.scenarioUpload c))).warnings
      = [scenarioInjectedRoutesWarning] ∧
    (openDialogHandle n t (some (UploadDialogResult.scenarioUpload c))).actions
      = [Action.closeDialog,
         Action.uploadScenarioSuccess (n c t).normalizedScenario] ∧
    (openDialogHandle n t
        (some (UploadDialogResult.scenarioSolutionPairUpload s sol))).warnings
      = [pairInjectedRoutesWarning] ∧
    (∃ es rs rv, (openDialogHandle n t
        (some (UploadDialogResult.scenarioSolutionPairUpload s sol))).actions
      = [Action.closeDialog,
         Action.uploadScenarioSuccess (n s t).normalizedScenario,
         Action.applySolution es rs rv]) := by
  refine ⟨?_, rfl, ?_, ⟨_, _, _, rfl⟩⟩
  · simp [openDialogHandle, hc]
  · simp [openDialogHandle, hs]

/-- C5: scenario normalization plus the upload-effect orchestration is
deterministic: with the normalization service, the timestamp (in place of
`Date.now()`) and the dialog result fixed, two runs of the `openDialog$`
body, of the `loadScenario$` body, and of normalization itself produce
identical outputs. -/
theorem upload_pipeline_deterministic (n : NormalizeScenario) (t : Nat)
    (d : Option UploadDialogResult) (sc : Scenario)
    (o1 o2 : EffectOutput) (a1 a2 : List Action) (r1 r2 : NormalizeResult)
    (ho1 : o1 = openDialogHandle n t d) (ho2 : o2 = openDialogHandle n t d)
    (ha1 : a1 = loadScenarioHandle n t sc) (ha2 : a2 = loadScenarioHandle n t sc)
    (hr1 : r1 = n sc t) (hr2 : r2 = n sc t) :
    o1 = o2 ∧ a1 = a2 ∧ r1 = r2 := by
  subst ho1 ho2 ha1 ha2 hr1 hr2
  exact ⟨rfl, rfl, rfl⟩

/-- C6: a dialog opens only on matching state and never twice
concurrently: the `openDialog$` guard passes only when the selected modal
is `Modal.Upload` and no dialog with id `Modal.Upload` is open, and the
`openCsvDialog$` guard passes only when the selected modal is
`Modal.CsvUpload` and no dialog with id `Modal.CsvUpload` is open. -/
theorem dialog_opens_only_on_matching_state (st st2 : DialogState)
    (h : openDialogGuard st = true) (h2 : openCsvDialogGuard st2 = true) :
    (st.selectedModal = some Modal.Upload ∧
      getDialogById st Modal.Upload = false) ∧
    (st2.selectedModal = some Modal.CsvUpload ∧
      getDialogById st2 Modal.CsvUpload = false) := by
  refine ⟨⟨?_, ?_⟩, ⟨?_, ?_⟩⟩
  · have := (Bool.and_eq_true _ _).mp h
    exact of_decide_eq_true this.1
  · have := (Bool.and_eq_true _ _).mp h
    simpa using this.2
  · have := (Bool.and_eq_true _ _).mp h2
    exact of_decide_eq_true this.1
  · have := (Bool.and_eq_true _ _).mp h2
    simpa using this.2

/-- A concrete normalized scenario carrying injected routes. -/
def sampleScenario : Scenario :=
  { injectedSolutionConstraint := some { routes := some [] }, payload := 0 }

/-- A concrete normalization result used to instantiate the theorems. -/
def sampleResult : NormalizeResult :=
  { firstSolutionRoutes := []
    injectedModelConstraint := none
    injectedSolution := false
    label := ""
    searchMode := 0
    shipments := [{ id := 1, ignore := false }, { id := 2, ignore := true }]
    shipmentModel := { payload := 0 }
    solvingMode := 0
    timeout := none
    traffic := false
    vehicles := [{ id := 3, ignore := true }, { id := 4, ignore := false }]
    vehicleOperators := [{ id := 5, ignore := true }]
    visitRequests := []
    allowLargeDeadlineDespiteInterruptionRisk := false
    interpretInjectedSolutionsUsingLabels := false
    populateTransitionPolylines := false
    useGeodesicDistances := false
    geodesicMetersPerSecond := none
    normalizedScenario := sampleScenario }

/-- A concrete normalization service returning `sampleResult`. -/
def sampleNormalize : NormalizeScenario := fun _ _ => sampleResult

/-- A concrete solution payload. -/
def sampleSolution : Solution := { payload := 0 }

/-- C2 witnessed at a concrete normalization service whose normalized
scenario has injected routes. -/
theorem injected_routes_warning_only_witness :
    hasInjectedRoutes (sampleNormalize sampleScenario 7).normalizedScenario = true ∧
    ((openDialogHandle sampleNormalize 7
        (some (UploadDialogResult.scenarioUpload sampleScenario))).warnings
      = [scenarioInjectedRoutesWarning] ∧
    (openDialogHandle sampleNormalize 7
        (some (UploadDialogResult.scenarioUpload sampleScenario))).actions
      = [Action.closeDialog,
         Action.uploadScenarioSuccess
           (sampleNormalize sampleScenario 7).normalizedScenario] ∧
    (openDialogHandle sampleNormalize 7
        (some (UploadDialogResult.scenarioSolutionPairUpload sampleScenario
          sampleSolution))).warnings
      = [pairInjectedRoutesWarning] ∧
    (∃ es rs rv, (openDialogHandle sampleNormalize 7
        (some (UploadDialogResult.scenarioSolutionPairUpload sampleScenario
          sampleSolution))).actions
      = [Action.closeDialog,
         Action.uploadScenarioSuccess
           (sampleNormalize sampleScenario 7).normalizedScenario,
         Action.applySolution es rs rv])) :=
  ⟨rfl, injected_routes_warning_only sampleNormalize 7 sampleScenario
    sampleScenario sampleSolution rfl rfl⟩

/-- C5 witnessed at a concrete normalization service, timestamp, dialog
result and scenario. -/
theorem upload_pipeline_deterministic_witness :
    openDialogHandle sampleNormalize 3
        (some (UploadDialogResult.scenarioUpload sampleScenario))
      = openDialogHandle sampleNormalize 3
        (some (UploadDialogResult.scenarioUpload sampleScenario)) ∧
    loadScenarioHandle sampleNormalize 3 sampleScenario
      = loadScenarioHandle sampleNormalize 3 sampleScenario ∧
    sampleNormalize sampleScenario 3 = sampleNormalize sampleScenario 3 :=
  upload_pipeline_deterministic sampleNormalize 3
    (some (UploadDialogResult.scenarioUpload sampleScenario)) sampleScenario
    _ _ _ _ _ _ rfl rfl rfl rfl rfl rfl

/-- A concrete UI state in which the Upload dialog may open. -/
def sampleUploadState : DialogState :=
  { selectedModal := some Modal.Upload, openDialogIds := [] }

/-- A concrete UI state in which the CSV upload dialog may open. -/
def sampleCsvState : DialogState :=
  { selectedModal := some Modal.CsvUpload, openDialogIds := [Modal.Upload] }

/-- C6 witnessed at concrete UI states passing both guards. -/
theorem dialog_opens_only_on_matching_state_witness :
    openDialogGuard sampleUploadState = true ∧
    openCsvDialogGuard sampleCsvState = true ∧
    ((sampleUploadState.selectedModal = some Modal.Upload ∧
        getDialogById sampleUploadState Modal.Upload = false) ∧
      (sampleCsvState.selectedModal = some Modal.CsvUpload ∧
        getDialogById sampleCsvState Modal.CsvUpload = false)) :=
  ⟨by decide, by decide,
    dialog_opens_only_on_matching_state sampleUploadState sampleCsvState
      (by decide) (by decide)⟩

end UploadEffects

namespace CsvService

/-- C10: when the allow-experimental flag is true,
`filterExperimentalFieldsFromCsv` returns the CSV unchanged; when it is
false, the result has the same number of rows and no cell of any listed
experimental column remains in any row. -/
theorem filterExperimentalFields_behavior
    (csv : List (List (String × String))) (fields : List String) :
    filterExperimentalFieldsFromCsv csv true fields = csv ∧
    (filterExperimentalFieldsFromCsv csv false fields).length = csv.length ∧
    (filterExperimentalFieldsFromCsv csv false fields).all
      (fun row => row.all (fun cell => !(fields.contains cell.fst))) = true := by
  refine ⟨rfl, ?_, ?_⟩
  · simp [filterExperimentalFieldsFromCsv]
  · simp only [filterExperimentalFieldsFromCsv, if_neg, List.all_eq_true,
      List.mem_map, Bool.false_eq_true, not_false_iff, forall_exists_index,
      and_imp]
    intro row row0 hrow0 hmap cell hcell
    subst hmap
    exact (List.mem_filter.mp hcell).2

end CsvService
